import Mathlib

/-!
Verification of the FinHelm-ai agent routing and orchestration engine.

This file gives a shallow embedding, in Lean 4, of the decision logic of the
multi-agent orchestration layer found under `backend/app/agents` and
`backend/app/services` of the repository:

* `agent_configs.py` — the static agent catalogue, the keyword-based request
  validation (`validate_agent_request`) and the query router
  (`route_query_to_agent`);
* `finance_agent.py`, `sales_agent.py`, `operations_agent.py` — the
  per-domain specialist pipelines (`process_query`, the data-requirement
  analysis, the QuickBooks fetch sequence, metric calculation and
  recommendation extraction);
* `agent_factory.py` — the agent instance cache (`create_agent`), the
  multi-agent fan-out (`process_multi_agent_query`) and the result
  synthesizer (`_synthesize_multi_agent_results`);
* `rag_service.py` — the user-scoped vector-store search
  (`search_relevant_context`) and document indexing (`add_financial_data`).

Modelling conventions:

* Python strings are Lean `String`s; Python's substring test `a in b` is the
  executable `isSubstr`; `str.lower` is `String.toLower`; `str.strip` is
  `String.trim`; `str.split('\n')` is `String.splitOn "\n"`.
* Monetary amounts (Python `float(...)` coercions of QuickBooks fields) are
  modelled as exact rationals `Rat`; every concrete input used in a theorem
  is integral, where float arithmetic is exact.
* Python dicts whose keys matter are association lists `List (String × _)`
  with Python's `dict.update` / key-assignment semantics (`insertPair`,
  `dictUpdate`); record-shaped dicts with a fixed key set are structures, an
  `Option` field standing for a key that may be absent.
* External collaborators (QuickBooks fetches, the Grok/Claude LLM clients,
  the FAISS index search) are oracle parameters.  Fetch oracles are
  `Except String _` because fetch failure is observable behaviour; the LLM
  and RAG oracles are total functions where no claim depends on their
  failure.  Pure string-formatting and chart-building helpers
  (`_format_*_context`, `_generate_*_charts`, `_calculate_sales_metrics`)
  are likewise universally quantified parameters: no claim inspects their
  output, so every theorem below holds for all of them.
* Calls to external collaborators are recorded in an explicit `ExtCall`
  trace, so "no fetch and no LLM call happens" is the provable statement
  "the trace is empty".
-/

/-! ## String utilities (Python `in`, `lower`, `split`, `strip`, `title`)

These are defined over the character list of the string (rather than through
the position-indexed core `String` functions) so that every operation
reduces inside the kernel; they agree with Python's semantics on the ASCII
text this system handles. -/

/-- Python's substring test `needle in haystack` on strings. -/
def isSubstr (needle haystack : String) : Bool :=
  haystack.data.tails.any (fun t => needle.data.isPrefixOf t)

/-- Python's `str.lower()` (ASCII). -/
def pyLower (s : String) : String :=
  String.mk (s.data.map Char.toLower)

/-- Split a character list on a separator character; `[[]]` on empty input,
matching Python's `"".split(sep) == [""]`. -/
def splitChars (sep : Char) : List Char → List (List Char)
  | [] => [[]]
  | c :: cs =>
    let rest := splitChars sep cs
    if c = sep then [] :: rest
    else
      match rest with
      | [] => [[c]]
      | r :: rs => (c :: r) :: rs

/-- Python's `str.split('\n')`. -/
def pySplitLines (s : String) : List String :=
  (splitChars '\n' s.data).map String.mk

/-- Python's `str.split()` on the single-space-separated capability phrases:
split on spaces and drop empty fragments. -/
def splitWords (s : String) : List String :=
  ((splitChars ' ' s.data).map String.mk).filter (fun w => w ≠ "")

/-- Python's `str.strip()`: drop whitespace from both ends. -/
def pyStrip (s : String) : String :=
  String.mk (((s.data.dropWhile Char.isWhitespace).reverse.dropWhile Char.isWhitespace).reverse)

/-- Python's `str.title()` restricted to ASCII: uppercase every letter that
follows a non-letter, lowercase the rest. -/
def titleCase (s : String) : String :=
  String.mk (s.data.foldl
    (fun (acc : List Char × Bool) c =>
      (acc.1 ++ [if acc.2 then c.toLower else c.toUpper], c.isAlpha))
    ([], false)).1

/-- Truthiness of an optional Python string (`None` and `""` are falsy). -/
def pyTruthy : Option String → Bool
  | none => false
  | some s => s ≠ ""

/-- Python dict key assignment `d[k] = v` on an association list: replace the
value in place when the key exists, otherwise append the new pair. -/
def insertPair {α : Type} (d : List (String × α)) (kv : String × α) : List (String × α) :=
  if d.any (fun p => p.1 == kv.1) then
    d.map (fun p => if p.1 == kv.1 then (p.1, kv.2) else p)
  else d ++ [kv]

/-- Python's `dict.update`: assign every pair of `e` into `d` in order. -/
def dictUpdate {α : Type} (d e : List (String × α)) : List (String × α) :=
  e.foldl insertPair d

/-! ## Agent catalogue (`agent_configs.py`, `AGENT_CONFIGURATIONS`)

Only the configuration fields read by the embedded operations are modelled:
`id`, `name`, `capabilities` and `confidence_threshold`.  The prompt texts,
tool lists, icons and colours are opaque to every operation verified here. -/

structure AgentConfig where
  id : String
  name : String
  capabilities : List String
  confidence_threshold : Rat
deriving DecidableEq

def financeConfig : AgentConfig :=
  { id := "finance"
    name := "Finance Agent"
    capabilities :=
      [ "Cash flow analysis and forecasting"
      , "Profit & loss statement interpretation"
      , "Budget variance explanations"
      , "Financial KPI calculation and tracking"
      , "Risk assessment and mitigation strategies"
      , "Working capital optimization"
      , "Tax planning insights"
      , "Financial trend analysis" ]
    confidence_threshold := 3/4 }

def salesConfig : AgentConfig :=
  { id := "sales"
    name := "Sales Agent"
    capabilities :=
      [ "Customer lifetime value analysis"
      , "Sales trend and seasonality analysis"
      , "Revenue forecasting and pipeline management"
      , "Customer segmentation and profiling"
      , "Churn prediction and retention strategies"
      , "Product/service performance analysis"
      , "Sales efficiency optimization"
      , "Market opportunity identification" ]
    confidence_threshold := 7/10 }

def operationsConfig : AgentConfig :=
  { id := "operations"
    name := "Operations Agent"
    capabilities :=
      [ "Expense analysis and cost optimization"
      , "Inventory management and optimization"
      , "Vendor performance analysis"
      , "Process efficiency improvements"
      , "Resource allocation optimization"
      , "Supply chain risk assessment"
      , "Operational KPI monitoring"
      , "Automation opportunity identification" ]
    confidence_threshold := 7/10 }

def executiveConfig : AgentConfig :=
  { id := "executive"
    name := "Executive Agent"
    capabilities :=
      [ "Executive dashboard insights"
      , "Strategic business analysis"
      , "Company-wide KPI monitoring"
      , "Competitive analysis support"
      , "Investment decision support"
      , "Growth opportunity identification"
      , "Risk management overview"
      , "Performance benchmarking" ]
    confidence_threshold := 4/5 }

def AGENT_CONFIGURATIONS : List (String × AgentConfig) :=
  [ ("finance", financeConfig)
  , ("sales", salesConfig)
  , ("operations", operationsConfig)
  , ("executive", executiveConfig) ]

/-- `get_agent_config`: `AGENT_CONFIGURATIONS.get(agent_id, {})`, the empty
dict modelled as `none`. -/
def get_agent_config (agentId : String) : Option AgentConfig :=
  AGENT_CONFIGURATIONS.lookup agentId

/-! ## `validate_agent_request` (`agent_configs.py` lines 253–277) -/

structure ValidationResult where
  valid : Bool
  confidence : Rat
  recommended : Bool
  agent_name : String
deriving DecidableEq

/-- Outcome of `validate_agent_request`: unknown agents yield the
`{"valid": False, "reason": ...}` dict, known agents the full result. -/
inductive ValidateOutcome
  | invalid (reason : String)
  | ok (v : ValidationResult)
deriving DecidableEq

def ValidateOutcome.confidenceOf : ValidateOutcome → Rat
  | .invalid _ => 0
  | .ok v => v.confidence

def ValidateOutcome.recommendedOf : ValidateOutcome → Bool
  | .invalid _ => false
  | .ok v => v.recommended

/-- `validate_agent_request(agent_id, query)`: count, over all capability
phrases and with multiplicity, the capability words occurring as substrings
of the lower-cased query; divide by the number of capabilities, clamp to 1;
recommend iff the confidence exceeds 0.3. -/
def validate_agent_request (agentId query : String) : ValidateOutcome :=
  match get_agent_config agentId with
  | none => .invalid "Unknown agent"
  | some config =>
    let queryLower := pyLower query
    let capabilities := config.capabilities.map pyLower
    let relevanceScore : Nat :=
      (capabilities.map
        (fun cap => ((splitWords cap).filter (fun w => isSubstr w queryLower)).length)).sum
    let confidence : Rat := min ((relevanceScore : Rat) / (capabilities.length : Rat)) 1
    .ok { valid := true
          confidence := confidence
          recommended := decide ((3 : Rat)/10 < confidence)
          agent_name := config.name }

/-! ## `route_query_to_agent` (`agent_configs.py` lines 280–306) -/

def finance_keywords : List String :=
  ["cash", "profit", "revenue", "expense", "budget", "forecast", "financial", "ratio", "balance"]

def sales_keywords : List String :=
  ["customer", "sales", "revenue", "growth", "churn", "retention", "pipeline", "conversion"]

def operations_keywords : List String :=
  ["inventory", "vendor", "supplier", "cost", "efficiency", "process", "operations"]

def executive_keywords : List String :=
  ["strategy", "kpi", "performance", "overview", "dashboard", "executive", "strategic"]

/-- `sum(1 for keyword in keywords if keyword in query_lower)`. -/
def keywordScore (keywords : List String) (queryLower : String) : Nat :=
  (keywords.filter (fun k => isSubstr k queryLower)).length

/-- Python's `max(scores, key=scores.get)` over the insertion-ordered score
dict: the fold replaces the best candidate only on a strictly greater score,
so the first enumerated key wins ties.  (`max` on an empty dict raises; the
router always passes four entries.) -/
def maxByFirst : List (String × Nat) → String × Nat
  | [] => ("finance", 0)
  | x :: xs => xs.foldl (fun acc y => if acc.2 < y.2 then y else acc) x

/-- `route_query_to_agent(query)`: score the four keyword sets against the
lower-cased query, pick the first agent with the highest score, default to
"finance" when the best score is zero. -/
def route_query_to_agent (query : String) : String :=
  let queryLower := pyLower query
  let scores : List (String × Nat) :=
    [ ("finance", keywordScore finance_keywords queryLower)
    , ("sales", keywordScore sales_keywords queryLower)
    , ("operations", keywordScore operations_keywords queryLower)
    , ("executive", keywordScore executive_keywords queryLower) ]
  let best := maxByFirst scores
  if 0 < best.2 then best.1 else "finance"

/-- The routing policy as the specification words it (spec §4.2, for the
refinement comparison only): the first agent in the declared order finance,
sales, operations, executive whose keyword count is not exceeded by any
later agent and strictly exceeds every earlier agent; "finance" when all
four counts are zero. -/
def route_query_spec (query : String) : String :=
  let queryLower := pyLower query
  let f := keywordScore finance_keywords queryLower
  let s := keywordScore sales_keywords queryLower
  let o := keywordScore operations_keywords queryLower
  let e := keywordScore executive_keywords queryLower
  if f = 0 ∧ s = 0 ∧ o = 0 ∧ e = 0 then "finance"
  else if s ≤ f ∧ o ≤ f ∧ e ≤ f then "finance"
  else if f < s ∧ o ≤ s ∧ e ≤ s then "sales"
  else if f < o ∧ s < o ∧ e ≤ o then "operations"
  else "executive"

/-! ## QuickBooks record shapes

Quickbooks records are opaque dicts from which the agents read a few known
keys with a default (`acc.get('AccountType', '')`,
`float(acc.get('CurrentBalance', 0))`, …); the structures below carry
exactly those read fields, with the default already applied. -/

structure Account where
  accountType : String
  currentBalance : Rat
deriving DecidableEq

structure Invoice where
  totalAmt : Rat
  balance : Rat
  txnDate : String
deriving DecidableEq

structure Item where
  active : Bool
deriving DecidableEq

/-- The Profit & Loss report payload is opaque to all embedded logic. -/
abbrev PLReport : Type := String

structure Customer where
  balance : Rat
  active : Bool
deriving DecidableEq

structure Vendor where
  balance : Rat
deriving DecidableEq

structure Bill where
  totalAmt : Rat
deriving DecidableEq

structure Payment where
  totalAmt : Rat
deriving DecidableEq

structure Expense where
  totalAmt : Rat
deriving DecidableEq

/-- Chart descriptors are opaque JSON blobs to every verified operation. -/
abbrev Chart : Type := String

/-- One call to an external collaborator, recorded in pipeline traces. -/
inductive ExtCall
  | qbFetch (dataType : String)
  | ragIndex (tag : String)
  | ragSearch
  | llm
deriving DecidableEq

/-- The per-invocation `context` dict passed into `process_query`; every key
may be absent. -/
structure QueryContext where
  access_token : Option String
  realm_id : Option String
  user_id : Option String
  company_name : Option String
  timestamp : Option String
deriving DecidableEq

/-! ## Finance agent (`finance_agent.py`) -/

/-- The `financial_data` bundle: a dict whose keys appear in fetch order
(`accounts`, `invoices`, `items`, `profit_loss`); `none` models an absent
key. -/
structure FinancialData where
  accounts : Option (List Account) := none
  invoices : Option (List Invoice) := none
  items : Option (List Item) := none
  profit_loss : Option PLReport := none
deriving DecidableEq

/-- `list(financial_data.keys())` in dict insertion order. -/
def FinancialData.keys (d : FinancialData) : List String :=
  (if d.accounts.isSome then ["accounts"] else [])
    ++ (if d.invoices.isSome then ["invoices"] else [])
    ++ (if d.items.isSome then ["items"] else [])
    ++ (if d.profit_loss.isSome then ["profit_loss"] else [])

def financeKeywordMap : List (String × List String) :=
  [ ("revenue", ["accounts", "invoices"])
  , ("income", ["accounts", "profit_loss"])
  , ("expense", ["accounts", "profit_loss"])
  , ("profit", ["profit_loss"])
  , ("loss", ["profit_loss"])
  , ("account", ["accounts"])
  , ("balance", ["accounts"])
  , ("invoice", ["invoices"])
  , ("customer", ["invoices"])
  , ("item", ["items"])
  , ("product", ["items"])
  , ("forecast", ["accounts", "invoices", "profit_loss"])
  , ("trend", ["accounts", "invoices"])
  , ("cash", ["accounts"])
  , ("asset", ["accounts"])
  , ("liability", ["accounts"])
  , ("equity", ["accounts"]) ]

/-- `FinanceAgent._analyze_query_requirements`: collect the data types of
every keyword occurring in the lower-cased query, deduplicate (Python uses
`list(set(...))`, whose order is arbitrary; only membership is observable
downstream), default to `["accounts"]`. -/
def analyze_query_requirements_finance (query : String) : List String :=
  let queryLower := pyLower query
  let requirements :=
    ((financeKeywordMap.filter (fun p => isSubstr p.1 queryLower)).foldl
      (fun acc p => acc ++ p.2) []).eraseDups
  if requirements.isEmpty then ["accounts"] else requirements

/-- `FinanceAgent._fetch_financial_data`, profit-and-loss stage: the last
fetch guarded by the single shared `try` block. -/
def fetchFinPL (opl : Except String PLReport) (reqs : List String)
    (d : FinancialData) (calls : List ExtCall) : FinancialData × List ExtCall :=
  if reqs.contains "profit_loss" then
    match opl with
    | .error _ => (d, calls ++ [.qbFetch "profit_loss"])
    | .ok r => ({ d with profit_loss := some r }, calls ++ [.qbFetch "profit_loss"])
  else (d, calls)

/-- `FinanceAgent._fetch_financial_data`, items stage; an exception ends the
shared `try` block, so a failure here skips the profit-and-loss stage. -/
def fetchFinItems (oit : Except String (List Item)) (opl : Except String PLReport)
    (reqs : List String) (d : FinancialData) (calls : List ExtCall) :
    FinancialData × List ExtCall :=
  if reqs.contains "items" then
    match oit with
    | .error _ => (d, calls ++ [.qbFetch "items"])
    | .ok r => fetchFinPL opl reqs { d with items := some r } (calls ++ [.qbFetch "items"])
  else fetchFinPL opl reqs d calls

/-- `FinanceAgent._fetch_financial_data`, invoices stage. -/
def fetchFinInvoices (oi : Except String (List Invoice)) (oit : Except String (List Item))
    (opl : Except String PLReport) (reqs : List String) (d : FinancialData)
    (calls : List ExtCall) : FinancialData × List ExtCall :=
  if reqs.contains "invoices" then
    match oi with
    | .error _ => (d, calls ++ [.qbFetch "invoices"])
    | .ok r => fetchFinItems oit opl reqs { d with invoices := some r } (calls ++ [.qbFetch "invoices"])
  else fetchFinItems oit opl reqs d calls

/-- `FinanceAgent._fetch_financial_data`: fetch the required data types in
the fixed order accounts, invoices, items, profit_loss inside one shared
`try` block.  A failing fetch ends the block: the partial bundle built so
far is returned and the remaining required types are never fetched.  The
oracle arguments stand for `query_accounts`, `query_invoices`,
`query_items` and `get_profit_loss_report`. -/
def fetch_financial_data (oa : Except String (List Account))
    (oi : Except String (List Invoice)) (oit : Except String (List Item))
    (opl : Except String PLReport) (reqs : List String) :
    FinancialData × List ExtCall :=
  if reqs.contains "accounts" then
    match oa with
    | .error _ => ({}, [.qbFetch "accounts"])
    | .ok r => fetchFinInvoices oi oit opl reqs { accounts := some r } [.qbFetch "accounts"]
  else fetchFinInvoices oi oit opl reqs {} []

/-- The five account-type buckets of `_calculate_key_metrics`. -/
structure AccountTotals where
  asset : Rat := 0
  liability : Rat := 0
  equity : Rat := 0
  income : Rat := 0
  expense : Rat := 0
deriving DecidableEq

/-- One step of the account-totals loop: add the balance to the bucket named
by the account type, ignoring types outside the five known buckets. -/
def addToTotals (t : AccountTotals) (a : Account) : AccountTotals :=
  if a.accountType = "Asset" then { t with asset := t.asset + a.currentBalance }
  else if a.accountType = "Liability" then { t with liability := t.liability + a.currentBalance }
  else if a.accountType = "Equity" then { t with equity := t.equity + a.currentBalance }
  else if a.accountType = "Income" then { t with income := t.income + a.currentBalance }
  else if a.accountType = "Expense" then { t with expense := t.expense + a.currentBalance }
  else t

structure AccountMetrics where
  total_assets : Rat
  total_liabilities : Rat
  total_equity : Rat
  total_income : Rat
  total_expenses : Rat
  net_income : Rat
  account_count : Nat
deriving DecidableEq

structure InvoiceMetrics where
  total_invoiced : Rat
  total_outstanding : Rat
  collection_rate : Rat
  invoice_count : Nat
deriving DecidableEq

/-- The metrics dict built by `_calculate_key_metrics`: the account-derived
keys are present iff the bundle has an `accounts` key, the invoice-derived
keys iff it has an `invoices` key. -/
structure FinanceMetrics where
  accounts : Option AccountMetrics
  invoices : Option InvoiceMetrics
deriving DecidableEq

/-- `FinanceAgent._calculate_key_metrics`: bucket account balances by the
five known account types and compute `net_income = income - expenses`;
total and outstanding invoice amounts with the collection rate (0 when
nothing was invoiced). -/
def calculate_key_metrics (d : FinancialData) : FinanceMetrics :=
  { accounts :=
      match d.accounts with
      | none => none
      | some accounts =>
        let totals := accounts.foldl addToTotals {}
        some { total_assets := totals.asset
               total_liabilities := totals.liability
               total_equity := totals.equity
               total_income := totals.income
               total_expenses := totals.expense
               net_income := totals.income - totals.expense
               account_count := accounts.length }
    invoices :=
      match d.invoices with
      | none => none
      | some invoices =>
        let total_invoiced := (invoices.map (fun i => i.totalAmt)).sum
        let total_outstanding := (invoices.map (fun i => i.balance)).sum
        some { total_invoiced := total_invoiced
               total_outstanding := total_outstanding
               collection_rate :=
                 if 0 < total_invoiced then
                   (total_invoiced - total_outstanding) / total_invoiced * 100
                 else 0
               invoice_count := invoices.length } }

def financeRecIndicators : List String :=
  [ "recommend", "suggest", "should", "consider", "improve"
  , "optimize", "focus on", "action", "next step" ]

/-- The stripped narrative lines that qualify as recommendations: lines
containing an advisory marker (case-insensitively) and longer than 20
characters, in original order. -/
def qualifyingLines (indicators : List String) (response : String) : List String :=
  ((pySplitLines response).map pyStrip).filter
    (fun line =>
      indicators.any (fun i => isSubstr i (pyLower line)) && decide (20 < line.length))

/-- `FinanceAgent._extract_recommendations`: the qualifying lines of the LLM
narrative, capped at the first 5. -/
def extract_recommendations (response : String) : List String :=
  (qualifyingLines financeRecIndicators response).take 5

/-- The `insights` dict of a successful finance result; the error paths
return an empty insights dict, modelled as `none` at the result level. -/
structure FinanceInsights where
  metrics : FinanceMetrics
  data_sources : List String
  analysis_type : String
deriving DecidableEq

/-- The result dict of `FinanceAgent.process_query`; `none` models an absent
key (`recommendations` is absent on error paths, `error` on success). -/
structure FinanceResult where
  response : String
  charts : List Chart
  financial_data : FinancialData
  insights : Option FinanceInsights
  recommendations : Option (List String)
  error : Option String
deriving DecidableEq

/-- An entry of the finance agent's in-memory `conversation_history`. -/
structure HistEntry where
  query : String
  response : String
  timestamp : String
  data_sources : List String
deriving DecidableEq

/-- `FinanceAgent.process_query`.  Oracle parameters: the four QuickBooks
fetches, the Grok call `analyze_financial_data(data_context, query)`, and
the pure helpers `_generate_charts` and `_format_financial_context` (no
claim inspects their output).  `now` stands for `datetime.now()`.  Returns
the result dict, the trace of external calls, and the updated conversation
history. -/
def finance_process_query (oa : Except String (List Account))
    (oi : Except String (List Invoice)) (oit : Except String (List Item))
    (opl : Except String PLReport) (grok : String → String → String)
    (genCharts : FinancialData → List String → List Chart)
    (fmtContext : FinancialData → String)
    (query : String) (ctx : QueryContext) (now : String)
    (history : List HistEntry) : FinanceResult × List ExtCall × List HistEntry :=
  if !(pyTruthy ctx.access_token) || !(pyTruthy ctx.realm_id) then
    ({ response := "I need an active QuickBooks connection to analyze your financial data. Please connect to QuickBooks first."
       charts := []
       financial_data := {}
       insights := none
       recommendations := none
       error := some "No QuickBooks access" }, [], history)
  else
    let reqs := analyze_query_requirements_finance query
    let fetched := fetch_financial_data oa oi oit opl reqs
    let financial_data := fetched.1
    let charts := genCharts financial_data reqs
    let data_context := fmtContext financial_data
    let grok_response := grok data_context query
    let metrics := calculate_key_metrics financial_data
    let history := history ++ [⟨query, grok_response, now, financial_data.keys⟩]
    ({ response := grok_response
       charts := charts
       financial_data := financial_data
       insights := some ⟨metrics, financial_data.keys, "grok_financial_analysis"⟩
       recommendations := some (extract_recommendations grok_response)
       error := none }, fetched.2 ++ [.llm], history)

/-! ## Sales agent (`sales_agent.py`) -/

/-- The `sales_data` bundle, keys in fetch order. -/
structure SalesData where
  invoices : Option (List Invoice) := none
  customers : Option (List Customer) := none
  items : Option (List Item) := none
  payments : Option (List Payment) := none
deriving DecidableEq

def SalesData.keys (d : SalesData) : List String :=
  (if d.invoices.isSome then ["invoices"] else [])
    ++ (if d.customers.isSome then ["customers"] else [])
    ++ (if d.items.isSome then ["items"] else [])
    ++ (if d.payments.isSome then ["payments"] else [])

def salesKeywordMap : List (String × List String) :=
  [ ("revenue", ["invoices", "items"])
  , ("sales", ["invoices", "customers"])
  , ("customer", ["customers", "invoices"])
  , ("client", ["customers", "invoices"])
  , ("invoice", ["invoices"])
  , ("payment", ["payments", "invoices"])
  , ("item", ["items", "invoices"])
  , ("product", ["items", "invoices"])
  , ("service", ["items", "invoices"])
  , ("growth", ["invoices", "customers"])
  , ("trend", ["invoices", "items"])
  , ("forecast", ["invoices", "customers", "items"])
  , ("performance", ["invoices", "items", "customers"])
  , ("analysis", ["invoices", "customers", "items"])
  , ("churn", ["customers", "invoices"])
  , ("retention", ["customers", "invoices"]) ]

/-- `SalesAgent._analyze_query_requirements`. -/
def analyze_query_requirements_sales (query : String) : List String :=
  let queryLower := pyLower query
  let requirements :=
    ((salesKeywordMap.filter (fun p => isSubstr p.1 queryLower)).foldl
      (fun acc p => acc ++ p.2) []).eraseDups
  if requirements.isEmpty then ["invoices", "customers"] else requirements

/-- `SalesAgent._fetch_sales_data`, payments stage. -/
def fetchSalesPayments (op : Except String (List Payment)) (reqs : List String)
    (d : SalesData) (calls : List ExtCall) : SalesData × List ExtCall :=
  if reqs.contains "payments" then
    match op with
    | .error _ => (d, calls ++ [.qbFetch "payments"])
    | .ok r => ({ d with payments := some r }, calls ++ [.qbFetch "payments"])
  else (d, calls)

/-- `SalesAgent._fetch_sales_data`, items stage. -/
def fetchSalesItems (oit : Except String (List Item)) (op : Except String (List Payment))
    (reqs : List String) (d : SalesData) (calls : List ExtCall) :
    SalesData × List ExtCall :=
  if reqs.contains "items" then
    match oit with
    | .error _ => (d, calls ++ [.qbFetch "items"])
    | .ok r => fetchSalesPayments op reqs { d with items := some r } (calls ++ [.qbFetch "items"])
  else fetchSalesPayments op reqs d calls

/-- `SalesAgent._fetch_sales_data`, customers stage. -/
def fetchSalesCustomers (oc : Except String (List Customer))
    (oit : Except String (List Item)) (op : Except String (List Payment))
    (reqs : List String) (d : SalesData) (calls : List ExtCall) :
    SalesData × List ExtCall :=
  if reqs.contains "customers" then
    match oc with
    | .error _ => (d, calls ++ [.qbFetch "customers"])
    | .ok r => fetchSalesItems oit op reqs { d with customers := some r } (calls ++ [.qbFetch "customers"])
  else fetchSalesItems oit op reqs d calls

/-- `SalesAgent._fetch_sales_data`: invoices, customers, items, payments in
order inside one shared `try` block, like the finance fetch. -/
def fetch_sales_data (oi : Except String (List Invoice))
    (oc : Except String (List Customer)) (oit : Except String (List Item))
    (op : Except String (List Payment)) (reqs : List String) :
    SalesData × List ExtCall :=
  if reqs.contains "invoices" then
    match oi with
    | .error _ => ({}, [.qbFetch "invoices"])
    | .ok r => fetchSalesCustomers oc oit op reqs { invoices := some r } [.qbFetch "invoices"]
  else fetchSalesCustomers oc oit op reqs {} []

/-! ## RAG service (`rag_service.py`) -/

/-- A stored document chunk (`document_store[doc_id]`); `source_data` is
opaque and omitted. -/
structure StoredDoc where
  content : String
  user_id : String
  data_type : String
  timestamp : String
deriving DecidableEq

/-- A search hit as returned by `search_relevant_context` (the stored
document's fields plus the similarity score; `source_data` omitted). -/
structure RetrievedDoc where
  content : String
  score : Rat
  data_type : String
  timestamp : String
deriving DecidableEq

/-- The vector-store state: the FAISS index size `ntotal`, the
`metadata_store` mapping stringified vector indices to document ids, and the
`document_store` mapping document ids to stored chunks.  The embedding
vectors themselves live inside the external FAISS index, whose `search` is
an oracle. -/
structure RAGStore where
  ntotal : Nat
  metadata_store : List (String × String)
  document_store : List (String × StoredDoc)
deriving DecidableEq

/-- The result-collection loop of `search_relevant_context` over the
`(score, idx)` rows returned by `index.search`: stop at the `-1` padding
index, look the index up in the metadata store, require a truthy document id
that is present in the document store, and keep the document only when its
stored `user_id` equals the requesting user's. -/
def collectHits (st : RAGStore) (user_id : String) :
    List (Rat × Int) → List RetrievedDoc
  | [] => []
  | (score, idx) :: rest =>
    if idx = -1 then []
    else
      match st.metadata_store.lookup (toString idx) with
      | none => collectHits st user_id rest
      | some docId =>
        if docId ≠ "" then
          match st.document_store.lookup docId with
          | some doc =>
            if doc.user_id = user_id then
              ⟨doc.content, score, doc.data_type, doc.timestamp⟩ :: collectHits st user_id rest
            else collectHits st user_id rest
          | none => collectHits st user_id rest
        else collectHits st user_id rest

/-- `RAGService.search_relevant_context(query, user_id, top_k)`: empty on an
empty index, otherwise run the external FAISS `index.search(embedding,
top_k)` — the oracle `indexSearch`, which returns one `(score, idx)` row per
requested slot, padded with `idx = -1` — and filter the hits through the
per-user document lookup above. -/
def search_relevant_context (st : RAGStore)
    (indexSearch : String → Nat → List (Rat × Int))
    (query user_id : String) (top_k : Nat) : List RetrievedDoc :=
  if st.ntotal = 0 then []
  else collectHits st user_id (indexSearch query top_k)

/-- `RAGService.add_financial_data`: the text conversion and chunk splitting
are external (`chunks` is their output); each chunk is appended to the FAISS
index and recorded in the two stores under the id
`user_id_dataType_timestamp_i`.  Dict assignment uses `insertPair`. -/
def add_financial_data (st : RAGStore) (user_id : String)
    (chunks : List String) (data_type timestamp : String) : RAGStore :=
  (chunks.enum).foldl
    (fun s p =>
      let ntotal := s.ntotal + 1
      let docId := user_id ++ "_" ++ data_type ++ "_" ++ timestamp ++ "_" ++ toString p.1
      { ntotal := ntotal
        metadata_store := insertPair s.metadata_store (toString (ntotal - 1), docId)
        document_store :=
          insertPair s.document_store (docId, ⟨p.2, user_id, data_type, timestamp⟩) })
    st

/-- Number of documents stored under a given user id. -/
def userDocCount (st : RAGStore) (user_id : String) : Nat :=
  (st.document_store.filter (fun p => p.2.user_id = user_id)).length

/-! ## Sales agent result shape and pipeline -/

/-- The value returned by `ClaudeService.create_agent_response`: either a
structured dict (response text, recommendations, insights) or a plain
narrative string — `process_query` branches on `isinstance(…, dict)`. -/
inductive ClaudeResponse
  | structured (response : String) (recommendations : List String) (insights : List String)
  | text (t : String)
deriving DecidableEq

def salesRecIndicators : List String :=
  [ "recommend", "suggest", "should", "consider", "improve"
  , "optimize", "focus on", "increase", "boost", "grow" ]

/-- `SalesAgent._extract_recommendations`: same shape as the finance
extraction with the sales marker set. -/
def extract_recommendations_sales (response : String) : List String :=
  (qualifyingLines salesRecIndicators response).take 5

/-- An entry of the sales agent's `conversation_history` (the stored
response may be the structured dict). -/
structure SalesHistEntry where
  query : String
  response : ClaudeResponse
  timestamp : String
  data_sources : List String
deriving DecidableEq

structure SalesInsights where
  metrics : List (String × Rat)
  key_insights : List String
  data_sources : List String
  analysis_type : String
  rag_context_used : Bool
deriving DecidableEq

structure SalesResult where
  response : String
  charts : List Chart
  sales_data : SalesData
  insights : Option SalesInsights
  recommendations : Option (List String)
  error : Option String
deriving DecidableEq

/-- `SalesAgent.process_query`.  Oracles: the four QuickBooks fetches, the
RAG search (`search_relevant_context(query, user_id)`), and the Claude call
`create_agent_response("sales", query, {financial_data, company_name,
timestamp})`.  The pure helpers `_generate_sales_charts`,
`_format_sales_context` and `_calculate_sales_metrics` are parameters (no
claim inspects their output).  The RAG indexing and search run only under a
truthy `user_id`; indexed tags are recorded in the trace. -/
def sales_process_query (oi : Except String (List Invoice))
    (oc : Except String (List Customer)) (oit : Except String (List Item))
    (op : Except String (List Payment))
    (ragSearch : String → String → List RetrievedDoc)
    (claude : String → String → String → String → ClaudeResponse)
    (genCharts : SalesData → List String → List Chart)
    (fmtContext : SalesData → List RetrievedDoc → String)
    (calcMetrics : SalesData → List (String × Rat))
    (query : String) (ctx : QueryContext) (now : String)
    (history : List SalesHistEntry) : SalesResult × List ExtCall × List SalesHistEntry :=
  if !(pyTruthy ctx.access_token) || !(pyTruthy ctx.realm_id) then
    ({ response := "I need an active QuickBooks connection to analyze your sales data. Please connect to QuickBooks first."
       charts := []
       sales_data := {}
       insights := none
       recommendations := none
       error := some "No QuickBooks access" }, [], history)
  else
    let reqs := analyze_query_requirements_sales query
    let fetched := fetch_sales_data oi oc oit op reqs
    let sales_data := fetched.1
    let ragCalls :=
      if pyTruthy ctx.user_id then
        sales_data.keys.map (fun dt => ExtCall.ragIndex ("sales_" ++ dt)) ++ [ExtCall.ragSearch]
      else []
    let relevant_context :=
      if pyTruthy ctx.user_id then ragSearch query (ctx.user_id.getD "") else []
    let charts := genCharts sales_data reqs
    let data_context := fmtContext sales_data relevant_context
    let claude_response :=
      claude query data_context (ctx.company_name.getD "Unknown") (ctx.timestamp.getD now)
    let metrics := calcMetrics sales_data
    let history := history ++ [⟨query, claude_response, now, sales_data.keys⟩]
    let fields :=
      match claude_response with
      | .structured r recs ins => (r, recs, ins)
      | .text t => (t, extract_recommendations_sales t, [])
    ({ response := fields.1
       charts := charts
       sales_data := sales_data
       insights := some ⟨metrics, fields.2.2, sales_data.keys, "claude_sales_analysis",
         decide (0 < relevant_context.length)⟩
       recommendations := some fields.2.1
       error := none }, fetched.2 ++ ragCalls ++ [.llm], history)

/-! ## Operations agent fetch (`operations_agent.py` lines 150–190) -/

/-- The `operations_data` bundle, keys in fetch order. -/
structure OperationsData where
  expenses : Option (List Expense) := none
  accounts : Option (List Account) := none
  vendors : Option (List Vendor) := none
  items : Option (List Item) := none
  bills : Option (List Bill) := none
deriving DecidableEq

/-- `OperationsAgent._fetch_operations_data`, bills stage. -/
def fetchOpsBills (ob : Except String (List Bill)) (reqs : List String)
    (d : OperationsData) (calls : List ExtCall) : OperationsData × List ExtCall :=
  if reqs.contains "bills" then
    match ob with
    | .error _ => (d, calls ++ [.qbFetch "bills"])
    | .ok r => ({ d with bills := some r }, calls ++ [.qbFetch "bills"])
  else (d, calls)

/-- `OperationsAgent._fetch_operations_data`, items stage. -/
def fetchOpsItems (oit : Except String (List Item)) (ob : Except String (List Bill))
    (reqs : List String) (d : OperationsData) (calls : List ExtCall) :
    OperationsData × List ExtCall :=
  if reqs.contains "items" then
    match oit with
    | .error _ => (d, calls ++ [.qbFetch "items"])
    | .ok r => fetchOpsBills ob reqs { d with items := some r } (calls ++ [.qbFetch "items"])
  else fetchOpsBills ob reqs d calls

/-- `OperationsAgent._fetch_operations_data`, vendors stage. -/
def fetchOpsVendors (ov : Except String (List Vendor)) (oit : Except String (List Item))
    (ob : Except String (List Bill)) (reqs : List String) (d : OperationsData)
    (calls : List ExtCall) : OperationsData × List ExtCall :=
  if reqs.contains "vendors" then
    match ov with
    | .error _ => (d, calls ++ [.qbFetch "vendors"])
    | .ok r => fetchOpsItems oit ob reqs { d with vendors := some r } (calls ++ [.qbFetch "vendors"])
  else fetchOpsItems oit ob reqs d calls

/-- `OperationsAgent._fetch_operations_data`, accounts stage: the fetched
accounts are filtered to the Expense / Other Current Asset / Fixed Asset
types before being stored. -/
def fetchOpsAccounts (oa : Except String (List Account))
    (ov : Except String (List Vendor)) (oit : Except String (List Item))
    (ob : Except String (List Bill)) (reqs : List String) (d : OperationsData)
    (calls : List ExtCall) : OperationsData × List ExtCall :=
  if reqs.contains "accounts" then
    match oa with
    | .error _ => (d, calls ++ [.qbFetch "accounts"])
    | .ok r =>
      let operations_accounts :=
        r.filter (fun a =>
          ["Expense", "Other Current Asset", "Fixed Asset"].contains a.accountType)
      fetchOpsVendors ov oit ob reqs { d with accounts := some operations_accounts }
        (calls ++ [.qbFetch "accounts"])
  else fetchOpsVendors ov oit ob reqs d calls

/-- `OperationsAgent._fetch_operations_data`: expenses, accounts, vendors,
items, bills in order inside one shared `try` block, like the finance
fetch. -/
def fetch_operations_data (oe : Except String (List Expense))
    (oa : Except String (List Account)) (ov : Except String (List Vendor))
    (oit : Except String (List Item)) (ob : Except String (List Bill))
    (reqs : List String) : OperationsData × List ExtCall :=
  if reqs.contains "expenses" then
    match oe with
    | .error _ => ({}, [.qbFetch "expenses"])
    | .ok r => fetchOpsAccounts oa ov oit ob reqs { expenses := some r } [.qbFetch "expenses"]
  else fetchOpsAccounts oa ov oit ob reqs {} []

/-! ## Agent factory (`agent_factory.py`) -/

/-- The override dict optionally passed to `create_agent`; its values are
opaque to the cache logic. -/
abbrev Override : Type := List (String × String)

/-- A constructed specialist instance.  `ref` is a freshness token standing
for Python object identity; `agentClass` is the pipeline class that was
instantiated; the configuration the constructor received is identified by
the looked-up config id (`baseConfigId`, the original requested id — the
class fallback does not change which configuration dict was read) together
with the override dict merged into it. -/
structure AgentInstance where
  ref : Nat
  agentClass : String
  baseConfigId : String
  override : Override
deriving DecidableEq

/-- The keys of `AgentFactory.agent_classes`. -/
def agent_classes : List String := ["finance", "sales", "operations"]

/-- The factory's mutable state: the `agent_cache` dict plus a freshness
counter for object identity. -/
structure FactoryState where
  agent_cache : List (String × AgentInstance)
  nextRef : Nat
deriving DecidableEq

/-- `AgentFactory.create_agent(agent_id, config)`: look up the configuration
(for the requested id), merge any override, fall back to the finance
pipeline class — rebinding `agent_id` to "finance" — when no class is
registered for the id, return the cached instance unchanged on a cache hit
(the override is ignored), and otherwise construct, cache and return a fresh
instance. -/
def create_agent (s : FactoryState) (agentId : String) (config : Option Override) :
    AgentInstance × FactoryState :=
  let override := config.getD []
  let effectiveId := if agentId ∈ agent_classes then agentId else "finance"
  match s.agent_cache.lookup effectiveId with
  | some inst => (inst, s)
  | none =>
    let inst : AgentInstance := ⟨s.nextRef, effectiveId, agentId, override⟩
    (inst, ⟨(effectiveId, inst) :: s.agent_cache, s.nextRef + 1⟩)

/-! ## Multi-agent fan-out and synthesis (`agent_factory.py` lines 94–233) -/

/-- A generic agent result dict as consumed by the synthesizer; every field
is read with a `.get` default, and `error = none` models an absent `error`
key. -/
structure GenAgentResult where
  response : String := ""
  insights : List (String × String) := []
  recommendations : List String := []
  charts : List Chart := []
  financial_data : List (String × String) := []
  error : Option String := none
deriving DecidableEq, Inhabited

/-- The `combined_recommendations` accumulator of
`_synthesize_multi_agent_results`: over the agents in result order, skip
results carrying an `error` key and tag each recommendation with the
title-cased agent id. -/
def combined_recommendations (results : List (String × GenAgentResult)) : List String :=
  results.foldl
    (fun acc p =>
      if p.2.error = none then
        acc ++ p.2.recommendations.map (fun rec => "[" ++ titleCase p.1 ++ "] " ++ rec)
      else acc)
    []

/-- The executive-summary prompt built by `_synthesize_multi_agent_results`
(whitespace normalised). -/
def synthesisPrompt (synthesizedText query : String) : String :=
  "Based on the following multi-agent analysis results, provide a concise executive summary:\n\n"
    ++ synthesizedText
    ++ "\n\nQuery: " ++ query
    ++ "\n\nPlease provide a unified summary that highlights the key insights from each agent while avoiding redundancy."

structure SynthesizedResult where
  response : String
  multi_agent_results : List (String × GenAgentResult)
  charts : List Chart
  financial_data : List (String × String)
  analysis_type : String
  agents_used : List String
  combined_insights : List (String × List (String × String))
  recommendations : List String
deriving DecidableEq

/-- `AgentFactory._synthesize_multi_agent_results(results, query)`: combine
the error-free results (headed narratives, per-agent insight keys, tagged
recommendations, concatenated charts, shallow-merged raw data), ask the LLM
oracle for an executive summary — falling back to the concatenation on
failure — and truncate the merged recommendations to the first 10. -/
def synthesize_multi_agent_results (llm : String → Except String String)
    (results : List (String × GenAgentResult)) (query : String) : SynthesizedResult :=
  let successes := results.filter (fun p => p.2.error = none)
  let combined_response :=
    (successes.filter (fun p => p.2.response ≠ "")).map
      (fun p => "**" ++ titleCase p.1 ++ " Analysis:**\n" ++ p.2.response)
  let combined_insights :=
    (successes.filter (fun p => p.2.insights ≠ [])).map
      (fun p => (p.1 ++ "_insights", p.2.insights))
  let combined_charts := (successes.map (fun p => p.2.charts)).flatten
  let all_financial_data :=
    successes.foldl (fun acc p => dictUpdate acc p.2.financial_data) []
  let synthesized_text := String.intercalate "\n\n" combined_response
  let final_response :=
    match llm (synthesisPrompt synthesized_text query) with
    | .ok t => t
    | .error _ => synthesized_text
  { response := final_response
    multi_agent_results := results
    charts := combined_charts
    financial_data := all_financial_data
    analysis_type := "multi_agent_synthesis"
    agents_used := results.map (fun p => p.1)
    combined_insights := combined_insights
    recommendations := (combined_recommendations results).take 10 }

def broadScopeWords : List String :=
  ["overview", "summary", "all", "complete", "comprehensive"]

/-- The agent-selection block of `process_multi_agent_query`: all three core
domain agents when the query contains a broad-scope word, otherwise the
routed primary agent plus "sales" on "customer" and "operations" on "cost"
(when not already primary). -/
def multiAgentTargets (query : String) : List String :=
  let queryLower := pyLower query
  if broadScopeWords.any (fun w => isSubstr w queryLower) then
    ["finance", "sales", "operations"]
  else
    let primary := route_query_to_agent query
    let base := [primary]
    let base :=
      if isSubstr "customer" queryLower && primary ≠ "sales" then base ++ ["sales"] else base
    if isSubstr "cost" queryLower && primary ≠ "operations" then base ++ ["operations"] else base

inductive MultiAgentOutcome
  | single (r : GenAgentResult)
  | synthesized (s : SynthesizedResult)
deriving DecidableEq

/-- `AgentFactory.process_multi_agent_query(query, context)`: select the
agents, run each sequentially — `runAgent` is the oracle for
`create_agent(id).process_query(query, context)` — and synthesize when more
than one result was collected, otherwise return the single result
directly. -/
def process_multi_agent_query (runAgent : String → GenAgentResult)
    (llm : String → Except String String) (query : String) : MultiAgentOutcome :=
  let results := (multiAgentTargets query).map (fun id => (id, runAgent id))
  if 1 < results.length then
    .synthesized (synthesize_multi_agent_results llm results query)
  else
    .single (results.headD ("", default)).2

/-! ## Miscellaneous executable helpers and concrete inputs used by the
theorems below -/

def exceptOk {α : Type} : Except String α → Bool
  | .ok _ => true
  | .error _ => false

def exceptToOption {α : Type} : Except String α → Option α
  | .ok a => some a
  | .error _ => none

/-- A sample invoice whose fetch succeeds in the partial-failure scenario. -/
def invoiceEx : Invoice := ⟨100, 20, "2024-01-31"⟩

/-- A sample vendor for the operations partial-failure scenario. -/
def vendorEx : Vendor := ⟨50⟩

/-- The bundle of the metrics round-trip: one Asset account with balance 100
and one Expense account with balance 40. -/
def assetExpenseBundle : FinancialData :=
  { accounts := some [⟨"Asset", 100⟩, ⟨"Expense", 40⟩] }

/-- A narrative with exactly 7 qualifying recommendation lines (each
containing an advisory marker and longer than 20 characters) interleaved
with non-qualifying noise lines. -/
def narrativeSeven : String :=
  "Financial analysis summary\n"
    ++ "We recommend reducing overhead spending\n"
    ++ "You should renegotiate supplier contracts\n"
    ++ "ok\n"
    ++ "Consider consolidating your bank accounts\n"
    ++ "Try to improve the invoice collection cycle\n"
    ++ "Optimize the payment schedule for vendors\n"
    ++ "We suggest building a cash reserve buffer\n"
    ++ "Focus on the highest margin product lines\n"
    ++ "done"

/-- A vector store populated through `add_financial_data`: three documents
for user "A" (indices 0, 2, 4) and two for user "B" (indices 1, 3). -/
def ragStoreEx : RAGStore :=
  let s0 : RAGStore := ⟨0, [], []⟩
  let s1 := add_financial_data s0 "A" ["alpha account balances"] "accounts" "t1"
  let s2 := add_financial_data s1 "B" ["bravo account balances"] "accounts" "t2"
  let s3 := add_financial_data s2 "A" ["alpha open invoices"] "invoices" "t3"
  let s4 := add_financial_data s3 "B" ["bravo open invoices"] "invoices" "t4"
  add_financial_data s4 "A" ["alpha vendor list"] "vendors" "t5"

/-- A FAISS search oracle whose global ranking puts a document of user "B"
first, above documents of user "A". -/
def idxSearchMixed : String → Nat → List (Rat × Int) :=
  fun _ top_k => ([(mkRat 9 10, 1), (mkRat 7 10, 0), (mkRat 6 10, 2)]).take top_k

/-- A FAISS search oracle whose global top slots are occupied exclusively by
documents of user "B". -/
def idxSearchOthers : String → Nat → List (Rat × Int) :=
  fun _ top_k => ([(mkRat 9 10, 1), (mkRat 8 10, 3)]).take top_k

/-! # Theorems -/

/-- C1: for every query and every context in which the QuickBooks access
token or the realm id is missing (Python-falsy), the finance and sales
`process_query` return a result whose `error` is the no-access tag
`"No QuickBooks access"` and whose narrative is the fixed, non-empty
"please connect" string; the external-call trace is empty — no accounting
fetch, no RAG call and no LLM call — and the conversation history is
untouched. -/
theorem processQuery_no_access_short_circuits
    (oa : Except String (List Account)) (oi : Except String (List Invoice))
    (oit : Except String (List Item)) (opl : Except String PLReport)
    (grok : String → String → String)
    (genChartsF : FinancialData → List String → List Chart)
    (fmtContextF : FinancialData → String)
    (oiS : Except String (List Invoice)) (oc : Except String (List Customer))
    (oitS : Except String (List Item)) (op : Except String (List Payment))
    (ragSearch : String → String → List RetrievedDoc)
    (claude : String → String → String → String → ClaudeResponse)
    (genChartsS : SalesData → List String → List Chart)
    (fmtContextS : SalesData → List RetrievedDoc → String)
    (calcMetrics : SalesData → List (String × Rat))
    (query : String) (ctx : QueryContext) (now : String)
    (histF : List HistEntry) (histS : List SalesHistEntry)
    (h : pyTruthy ctx.access_token = false ∨ pyTruthy ctx.realm_id = false) :
    ((finance_process_query oa oi oit opl grok genChartsF fmtContextF query ctx now histF).1.error
        = some "No QuickBooks access"
      ∧ (finance_process_query oa oi oit opl grok genChartsF fmtContextF query ctx now histF).1.response
        = "I need an active QuickBooks connection to analyze your financial data. Please connect to QuickBooks first."
      ∧ (finance_process_query oa oi oit opl grok genChartsF fmtContextF query ctx now histF).1.response ≠ ""
      ∧ (finance_process_query oa oi oit opl grok genChartsF fmtContextF query ctx now histF).2.1 = []
      ∧ (finance_process_query oa oi oit opl grok genChartsF fmtContextF query ctx now histF).2.2 = histF)
    ∧ ((sales_process_query oiS oc oitS op ragSearch claude genChartsS fmtContextS calcMetrics
          query ctx now histS).1.error = some "No QuickBooks access"
      ∧ (sales_process_query oiS oc oitS op ragSearch claude genChartsS fmtContextS calcMetrics
          query ctx now histS).1.response
        = "I need an active QuickBooks connection to analyze your sales data. Please connect to QuickBooks first."
      ∧ (sales_process_query oiS oc oitS op ragSearch claude genChartsS fmtContextS calcMetrics
          query ctx now histS).1.response ≠ ""
      ∧ (sales_process_query oiS oc oitS op ragSearch claude genChartsS fmtContextS calcMetrics
          query ctx now histS).2.1 = []
      ∧ (sales_process_query oiS oc oitS op ragSearch claude genChartsS fmtContextS calcMetrics
          query ctx now histS).2.2 = histS) := by
  rcases h with h | h <;>
    simp [finance_process_query, sales_process_query, h]

/-- Witness for C1: a concrete context with no access token. -/
theorem processQuery_no_access_short_circuits_witness :
    (finance_process_query (.ok []) (.ok []) (.ok []) (.ok "") (fun _ _ => "")
        (fun _ _ => []) (fun _ => "") "show my cash flow"
        ⟨none, some "9130", some "u1", none, none⟩ "2025-01-01" []).1.error
      = some "No QuickBooks access"
    ∧ (sales_process_query (.ok []) (.ok []) (.ok []) (.ok []) (fun _ _ => [])
        (fun _ _ _ _ => .text "") (fun _ _ => []) (fun _ _ => "") (fun _ => [])
        "show my cash flow" ⟨none, some "9130", some "u1", none, none⟩ "2025-01-01" []).2.1 = [] := by
  obtain ⟨hf, hs⟩ :=
    processQuery_no_access_short_circuits (.ok []) (.ok []) (.ok []) (.ok "") (fun _ _ => "")
      (fun _ _ => []) (fun _ => "") (.ok []) (.ok []) (.ok []) (.ok []) (fun _ _ => [])
      (fun _ _ _ _ => .text "") (fun _ _ => []) (fun _ _ => "") (fun _ => [])
      "show my cash flow" ⟨none, some "9130", some "u1", none, none⟩ "2025-01-01" [] []
      (Or.inl rfl)
  exact ⟨hf.1, hs.2.2.2.1⟩

/-- C2 counterexample: with `["accounts", "invoices"]` required, a failing
accounts fetch and a succeeding invoices fetch, the resulting bundle omits
the `invoices` key — the invoices fetch is skipped, so a single data type's
failure does not only drop that data type's key. -/
theorem fetch_failure_skips_later_fetches_cx :
    (fetch_financial_data (.error "QuickBooks API error") (.ok [invoiceEx]) (.ok [])
        (.ok "") ["accounts", "invoices"]).1.invoices = none
    ∧ exceptOk (Except.ok [invoiceEx] : Except String (List Invoice)) = true
    ∧ ["accounts", "invoices"].contains "invoices" = true := by
  refine ⟨rfl, rfl, rfl⟩

/-- C2 (amended): a failing fetch ends the shared `try` block of
`_fetch_financial_data`, so a data type's key is present in the bundle iff
that type is required, its own fetch succeeds, and no earlier required fetch
(in the fixed order accounts, invoices, items, profit_loss) failed; data
fetched before the failure is kept and the pipeline continues.  The final
conjunct shows the same single-`try` behaviour for the operations fetch:
with expenses failing, the succeeding vendors fetch is skipped. -/
theorem fetch_financial_data_failure_prefix_semantics
    (oa : Except String (List Account)) (oi : Except String (List Invoice))
    (oit : Except String (List Item)) (opl : Except String PLReport)
    (reqs : List String) :
    (fetch_financial_data oa oi oit opl reqs).1.accounts
        = (if reqs.contains "accounts" then exceptToOption oa else none)
    ∧ (fetch_financial_data oa oi oit opl reqs).1.invoices
        = (if reqs.contains "invoices"
              && (!(reqs.contains "accounts") || exceptOk oa) then
            exceptToOption oi else none)
    ∧ (fetch_financial_data oa oi oit opl reqs).1.items
        = (if reqs.contains "items"
              && (!(reqs.contains "accounts") || exceptOk oa)
              && (!(reqs.contains "invoices") || exceptOk oi) then
            exceptToOption oit else none)
    ∧ (fetch_financial_data oa oi oit opl reqs).1.profit_loss
        = (if reqs.contains "profit_loss"
              && (!(reqs.contains "accounts") || exceptOk oa)
              && (!(reqs.contains "invoices") || exceptOk oi)
              && (!(reqs.contains "items") || exceptOk oit) then
            exceptToOption opl else none)
    ∧ (fetch_operations_data (.error "QuickBooks API error") (.ok []) (.ok [vendorEx])
        (.ok []) (.ok []) ["expenses", "vendors"]).1.vendors = none := by
  refine ⟨?_, ?_, ?_, ?_, rfl⟩ <;>
  · cases oa <;> cases oi <;> cases oit <;> cases opl <;>
      by_cases h1 : "accounts" ∈ reqs <;>
      by_cases h2 : "invoices" ∈ reqs <;>
      by_cases h3 : "items" ∈ reqs <;>
      by_cases h4 : "profit_loss" ∈ reqs <;>
      simp [fetch_financial_data, fetchFinInvoices, fetchFinItems, fetchFinPL,
        exceptOk, exceptToOption, h1, h2, h3, h4]

/-- C3 counterexample: `validate("finance", "what is my cash flow this
month")` scores only the two capability words "cash" and "flow" out of 8
capability phrases, so the confidence is 1/4 ≤ 0.3 and `recommended` is
false — the claimed `confidence > 0.3` and `recommended = true` both fail. -/
theorem validate_finance_cashflow_not_recommended_cx :
    ¬ ((3 : Rat)/10
          < (validate_agent_request "finance" "what is my cash flow this month").confidenceOf
        ∧ (validate_agent_request "finance" "what is my cash flow this month").recommendedOf
          = true) := by
  have hscore :
      ((financeConfig.capabilities.map pyLower).map
        (fun cap =>
          ((splitWords cap).filter
            (fun w => isSubstr w (pyLower "what is my cash flow this month"))).length)).sum
        = 2 := by decide
  have hlen : (financeConfig.capabilities.map pyLower).length = 8 := by decide
  have hcfg : get_agent_config "finance" = some financeConfig := rfl
  intro hcl
  have h1 := hcl.1
  rw [show (validate_agent_request "finance" "what is my cash flow this month").confidenceOf
        = min ((2 : Rat) / 8) 1 by
      unfold validate_agent_request
      rw [hcfg]
      simp only [ValidateOutcome.confidenceOf, hscore, hlen]
      norm_num] at h1
  norm_num at h1

/-- C3 (amended): the call returns `valid = true`, confidence exactly 1/4
(which is not greater than 0.3) and `recommended = false`, under the agent
name "Finance Agent". -/
theorem validate_finance_cashflow_value :
    validate_agent_request "finance" "what is my cash flow this month"
      = .ok { valid := true, confidence := 1/4, recommended := false,
              agent_name := "Finance Agent" } := by
  have hscore :
      ((financeConfig.capabilities.map pyLower).map
        (fun cap =>
          ((splitWords cap).filter
            (fun w => isSubstr w (pyLower "what is my cash flow this month"))).length)).sum
        = 2 := by decide
  have hlen : (financeConfig.capabilities.map pyLower).length = 8 := by decide
  unfold validate_agent_request
  rw [show get_agent_config "finance" = some financeConfig from rfl]
  simp only [hscore, hlen]
  norm_num
  rfl

/-- C4: routing is a pure function of the query text, and for every query
`route_query_to_agent` agrees with the declared-order policy
`route_query_spec`: the strictly highest keyword count wins, a tie at the
top goes to the first agent in the declared order finance, sales,
operations, executive, and when every count is zero the result is
"finance".  Determinism is inherent: both sides are functions of the query
text alone. -/
theorem route_query_deterministic_first_wins (query : String) :
    route_query_to_agent query = route_query_spec query := by
  simp only [route_query_to_agent, route_query_spec, maxByFirst, List.foldl]
  generalize keywordScore finance_keywords (pyLower query) = f
  generalize keywordScore sales_keywords (pyLower query) = s
  generalize keywordScore operations_keywords (pyLower query) = o
  generalize keywordScore executive_keywords (pyLower query) = e
  by_cases h1 : f < s
  · simp only [if_pos h1]
    by_cases h2 : s < o
    · simp only [if_pos h2]
      by_cases h3 : o < e
      · simp only [if_pos h3]
        split_ifs <;> first | rfl | omega
      · simp only [if_neg h3]
        split_ifs <;> first | rfl | omega
    · simp only [if_neg h2]
      by_cases h3 : s < e
      · simp only [if_pos h3]
        split_ifs <;> first | rfl | omega
      · simp only [if_neg h3]
        split_ifs <;> first | rfl | omega
  · simp only [if_neg h1]
    by_cases h2 : f < o
    · simp only [if_pos h2]
      by_cases h3 : o < e
      · simp only [if_pos h3]
        split_ifs <;> first | rfl | omega
      · simp only [if_neg h3]
        split_ifs <;> first | rfl | omega
    · simp only [if_neg h2]
      by_cases h3 : f < e
      · simp only [if_pos h3]
        split_ifs <;> first | rfl | omega
      · simp only [if_neg h3]
        split_ifs <;> first | rfl | omega

/-- Helper: a key that `List.lookup` does not find occurs zero times among
the keys of the association list. -/
theorem lookup_none_key_count_zero {α : Type} (l : List (String × α)) (k : String)
    (h : l.lookup k = none) : (l.map Prod.fst).count k = 0 := by
  induction l with
  | nil => simp
  | cons p t ih =>
    by_cases hk : k = p.1
    · exfalso
      rw [List.lookup, hk] at h
      simp at h
    · rw [List.lookup] at h
      rw [show (k == p.1) = false by simp [hk]] at h
      simp only [List.map_cons, List.count_cons, ih h]
      simp [Ne.symm hk]

/-- C5: calling `create_agent` twice with the same agent id on the same
factory returns the identical cached instance — the second call's override
configuration is ignored and the factory state is unchanged — and the
cache keeps at most one instance per agent id. -/
theorem create_agent_cache_idempotent (st : FactoryState) (agentId : String)
    (cfg1 cfg2 : Option Override)
    (huniq : ∀ id, ((st.agent_cache.map Prod.fst).count id) ≤ 1) :
    (create_agent (create_agent st agentId cfg1).2 agentId cfg2).1
        = (create_agent st agentId cfg1).1
    ∧ (create_agent (create_agent st agentId cfg1).2 agentId cfg2).2
        = (create_agent st agentId cfg1).2
    ∧ ∀ id, (((create_agent st agentId cfg1).2.agent_cache.map Prod.fst).count id) ≤ 1 := by
  cases hl : st.agent_cache.lookup (if agentId ∈ agent_classes then agentId else "finance") with
  | some inst =>
    refine ⟨?_, ?_, ?_⟩ <;> simp only [create_agent, hl] <;> simp [huniq]
  | none =>
    refine ⟨?_, ?_, ?_⟩
    · simp only [create_agent, hl]
      simp [List.lookup]
    · simp only [create_agent, hl]
      simp [List.lookup]
    · intro id
      simp only [create_agent, hl]
      simp only [List.map_cons, List.count_cons]
      by_cases hid : id = (if agentId ∈ agent_classes then agentId else "finance")
      · have h0 := lookup_none_key_count_zero st.agent_cache _ hl
        simp [hid, h0]
      · have hu := huniq id
        rw [show ((if agentId ∈ agent_classes then agentId else "finance") == id) = false
            from beq_eq_false_iff_ne.mpr (fun hh => hid hh.symm)]
        simpa using hu

/-- Witness for C5: the empty factory, creating "finance" twice, the second
time with an override that is ignored. -/
theorem create_agent_cache_idempotent_witness :
    (create_agent (create_agent ⟨[], 0⟩ "finance" none).2 "finance"
        (some [("name", "Override Agent")])).1
      = (create_agent (⟨[], 0⟩ : FactoryState) "finance" none).1 :=
  (create_agent_cache_idempotent ⟨[], 0⟩ "finance" none (some [("name", "Override Agent")])
    (fun id => by simp)).1

/-- C6: for every query containing (case-insensitively, as a substring) at
least one of the broad-scope words "overview", "summary", "all",
"complete", "comprehensive", the multi-agent fan-out selects exactly the
three core domain agents finance, sales, operations — regardless of any
other keyword content — and `process_multi_agent_query` synthesizes over
exactly those three agents, for every agent oracle and LLM oracle. -/
theorem broad_scope_selects_three_core_agents (query : String)
    (h : broadScopeWords.any (fun w => isSubstr w (pyLower query)) = true) :
    multiAgentTargets query = ["finance", "sales", "operations"]
    ∧ ∀ (runAgent : String → GenAgentResult) (llm : String → Except String String),
        ∃ s, process_multi_agent_query runAgent llm query = .synthesized s
          ∧ s.agents_used = ["finance", "sales", "operations"] := by
  have ht : multiAgentTargets query = ["finance", "sales", "operations"] := by
    simp [multiAgentTargets, h]
  refine ⟨ht, fun runAgent llm => ?_⟩
  refine ⟨synthesize_multi_agent_results llm
      ((["finance", "sales", "operations"]).map (fun id => (id, runAgent id))) query, ?_, ?_⟩
  · simp [process_multi_agent_query, ht]
  · simp [synthesize_multi_agent_results]

/-- Witness for C6 at the query "Give me a complete overview". -/
theorem broad_scope_selects_three_core_agents_witness :
    multiAgentTargets "Give me a complete overview" = ["finance", "sales", "operations"]
    ∧ ∃ s, process_multi_agent_query (fun _ => default) (fun _ => .error "llm down")
          "Give me a complete overview" = .synthesized s
        ∧ s.agents_used = ["finance", "sales", "operations"] := by
  obtain ⟨h1, h2⟩ := broad_scope_selects_three_core_agents "Give me a complete overview"
    (by decide)
  exact ⟨h1, h2 (fun _ => default) (fun _ => .error "llm down")⟩

/-- C7: recommendation extraction returns a prefix of the qualifying lines
(advisory marker present, longer than 20 characters) — themselves a
subsequence of the stripped narrative lines, so original order is
preserved — capped at 5 (exactly the first 5 when 7 lines qualify); and the
synthesizer's merged recommendation list is a prefix of the unranked
agent-ordered merge, truncated to at most its first 10 entries, for every
LLM oracle and result map. -/
theorem recommendation_caps :
    (∀ response,
        extract_recommendations response <+: qualifyingLines financeRecIndicators response
        ∧ List.Sublist (qualifyingLines financeRecIndicators response)
            ((pySplitLines response).map pyStrip)
        ∧ (extract_recommendations response).length
            = min 5 (qualifyingLines financeRecIndicators response).length)
    ∧ (∀ response, (qualifyingLines financeRecIndicators response).length = 7 →
        extract_recommendations response
            = (qualifyingLines financeRecIndicators response).take 5
        ∧ (extract_recommendations response).length = 5)
    ∧ (∀ (llm : String → Except String String) (results : List (String × GenAgentResult))
          (query : String),
        (synthesize_multi_agent_results llm results query).recommendations
            <+: combined_recommendations results
        ∧ ((synthesize_multi_agent_results llm results query).recommendations).length
            = min 10 (combined_recommendations results).length) := by
  refine ⟨fun response => ⟨?_, ?_, ?_⟩,
    fun response h7 => ⟨rfl, ?_⟩,
    fun llm results query => ⟨?_, ?_⟩⟩
  · exact ⟨(qualifyingLines financeRecIndicators response).drop 5,
      List.take_append_drop 5 _⟩
  · exact List.filter_sublist _
  · simp [extract_recommendations]
  · simp [extract_recommendations, h7]
  · exact ⟨(combined_recommendations results).drop 10, List.take_append_drop 10 _⟩
  · simp [synthesize_multi_agent_results]

/-- Witness for C7: the 7-qualifying-line narrative yields exactly its first
5 qualifying lines. -/
theorem recommendation_caps_witness :
    extract_recommendations narrativeSeven
        = (qualifyingLines financeRecIndicators narrativeSeven).take 5
    ∧ (extract_recommendations narrativeSeven).length = 5 :=
  recommendation_caps.2.1 narrativeSeven (by decide)

/-- C8: on a bundle whose accounts list is an Asset account with balance 100
and an Expense account with balance 40, `_calculate_key_metrics` yields
`total_assets = 100`, `total_expenses = 40`, `total_income = 0` and
`net_income = total_income - total_expenses = -40`. -/
theorem finance_metrics_asset_expense_roundtrip :
    ∃ m, (calculate_key_metrics assetExpenseBundle).accounts = some m
      ∧ m.total_assets = 100 ∧ m.total_expenses = 40 ∧ m.total_income = 0
      ∧ m.net_income = m.total_income - m.total_expenses ∧ m.net_income = -40 := by
  refine ⟨⟨100, 0, 0, 0, 40, -40, 2⟩, ?_, rfl, rfl, rfl, by norm_num, rfl⟩
  simp only [calculate_key_metrics, assetExpenseBundle]
  simp [List.foldl, addToTotals]

/-- Helper: a successful `List.lookup` returns a pair of the list. -/
theorem lookup_some_mem {α : Type} (l : List (String × α)) (k : String) (v : α)
    (h : l.lookup k = some v) : (k, v) ∈ l := by
  induction l with
  | nil => simp [List.lookup] at h
  | cons p t ih =>
    obtain ⟨a, b⟩ := p
    rw [List.lookup] at h
    cases hk : (k == a) with
    | true =>
      rw [hk] at h
      simp only [Option.some.injEq] at h
      subst h
      have : k = a := by simpa using hk
      subst this
      exact List.mem_cons_self _ _
    | false =>
      rw [hk] at h
      exact List.mem_cons_of_mem _ (ih h)

/-- Helper: every document produced by the hit-collection loop is a stored
document of the requesting user. -/
theorem collectHits_user_scoped (st : RAGStore) (uid : String)
    (hits : List (Rat × Int)) (d : RetrievedDoc) (hd : d ∈ collectHits st uid hits) :
    ∃ docId doc, (docId, doc) ∈ st.document_store ∧ doc.user_id = uid
      ∧ d.content = doc.content ∧ d.data_type = doc.data_type
      ∧ d.timestamp = doc.timestamp := by
  induction hits with
  | nil => simp [collectHits] at hd
  | cons h0 rest ih =>
    obtain ⟨score, idx⟩ := h0
    rw [collectHits] at hd
    split at hd
    · simp at hd
    · split at hd
      · exact ih hd
      · rename_i docId hm
        split at hd
        · split at hd
          · rename_i doc hds
            split at hd
            · rename_i hu
              rcases List.mem_cons.mp hd with he | hrest
              · subst he
                exact ⟨docId, doc, lookup_some_mem _ _ _ hds, hu, rfl, rfl, rfl⟩
              · exact ih hrest
            · exact ih hd
          · exact ih hd
        · exact ih hd

/-- Helper: the hit-collection loop returns at most one document per hit
row. -/
theorem collectHits_length_le (st : RAGStore) (uid : String)
    (hits : List (Rat × Int)) : (collectHits st uid hits).length ≤ hits.length := by
  induction hits with
  | nil => simp [collectHits]
  | cons h0 rest ih =>
    obtain ⟨score, idx⟩ := h0
    rw [collectHits]
    split
    · simp
    · split
      · exact Nat.le_succ_of_le ih
      · split
        · split
          · split
            · simpa using ih
            · exact Nat.le_succ_of_le ih
          · exact Nat.le_succ_of_le ih
        · exact Nat.le_succ_of_le ih

/-- C9: for every vector-store state, FAISS oracle, query and requesting
user, every document returned by `search_relevant_context` is a document
stored under exactly that user id — a document stored under any other user
is never returned, whatever its similarity score. -/
theorem rag_search_user_scoped (st : RAGStore)
    (indexSearch : String → Nat → List (Rat × Int))
    (query user_id : String) (top_k : Nat) (d : RetrievedDoc)
    (hd : d ∈ search_relevant_context st indexSearch query user_id top_k) :
    ∃ docId doc, (docId, doc) ∈ st.document_store ∧ doc.user_id = user_id
      ∧ d.content = doc.content ∧ d.data_type = doc.data_type
      ∧ d.timestamp = doc.timestamp := by
  unfold search_relevant_context at hd
  by_cases h0 : st.ntotal = 0
  · rw [if_pos h0] at hd
    simp at hd
  · rw [if_neg h0] at hd
    exact collectHits_user_scoped st user_id _ d hd

/-- Witness for C9: in the concrete store, searching as user "A" under a
ranking led by a document of user "B" returns only documents stored under
"A". -/
theorem rag_search_user_scoped_witness :
    ∃ docId doc, (docId, doc) ∈ ragStoreEx.document_store ∧ doc.user_id = "A"
      ∧ ("alpha account balances" : String) = doc.content
      ∧ ("accounts" : String) = doc.data_type
      ∧ ("t1" : String) = doc.timestamp :=
  rag_search_user_scoped ragStoreEx idxSearchMixed "cash" "A" 5
    ⟨"alpha account balances", mkRat 7 10, "accounts", "t1"⟩ (by decide)

/-- C10: because the per-user filter runs after the global top-k search, the
search returns at most `top_k` documents (one per hit row), and in the
concrete store — holding 3 documents of user "A" — a search for "A" with
limit 2 whose global top-2 slots are both occupied by user "B" documents
returns nothing at all: the foreign slots are discarded, not replaced by
A's next-best documents. -/
theorem rag_search_postfilter_bound :
    (∀ (st : RAGStore) (indexSearch : String → Nat → List (Rat × Int))
        (query user_id : String) (top_k : Nat),
        (indexSearch query top_k).length = top_k →
        (search_relevant_context st indexSearch query user_id top_k).length ≤ top_k)
    ∧ search_relevant_context ragStoreEx idxSearchOthers "cash" "A" 2 = []
    ∧ userDocCount ragStoreEx "A" = 3
    ∧ 2 < userDocCount ragStoreEx "A" := by
  refine ⟨?_, by decide, by decide, by decide⟩
  intro st indexSearch query user_id top_k hk
  unfold search_relevant_context
  by_cases h0 : st.ntotal = 0
  · rw [if_pos h0]
    simp
  · rw [if_neg h0]
    calc (collectHits st user_id (indexSearch query top_k)).length
        ≤ (indexSearch query top_k).length := collectHits_length_le st user_id _
      _ = top_k := hk

/-- Witness for C10 at the concrete store with a full 3-row hit list. -/
theorem rag_search_postfilter_bound_witness :
    (search_relevant_context ragStoreEx idxSearchMixed "cash" "A" 3).length ≤ 3 :=
  rag_search_postfilter_bound.1 ragStoreEx idxSearchMixed "cash" "A" 3 (by decide)
